import Mathlib

/-!
Shallow embedding of the gateway pipeline of the task-executor repository:
the credential-validating middleware (src/middlewares/authMiddleware.ts),
the role middleware (roleMiddleware.ts), the error handler
(middlewares/errorHandler.ts), the per-version mounting of the deprecation
tagger and the two rate limiters (src/server.ts), and the static version
configuration (src/config/index.ts).

Header and path values are embedded as `List Char` so that the JavaScript
string operations used by the source (`split(' ')`, `startsWith`,
`match(/v\d+/)`) become structurally recursive Lean functions.
-/

namespace TaskExec

/-- Identity claims attached to a request (`req.user`), shape of
`JwtPayload` in types/index.d.ts. -/
structure Claims where
  id : String
  email : String
  role : String
deriving DecidableEq

/-- The fixed synthetic admin identity attached by the development branch of
`authMiddleware` (authMiddleware.ts lines 31-35). -/
def devClaims : Claims :=
  { id := "dev-user-id", email := "dev@example.com", role := "admin" }

/-- Outcome of the credential-validating middleware: either a JSON denial
response with an HTTP status, or `next()` with claims attached. -/
inductive AuthOutcome where
  | denied (status : Nat) (msg : String)
  | granted (user : Claims)
deriving DecidableEq

/-- JavaScript `s.split(c)` on a one-character separator: every occurrence of
`c` separates, empty fields are kept, `''.split(c) = ['']`. -/
def splitOnChar (c : Char) : List Char → List (List Char)
  | [] => [[]]
  | x :: xs =>
    let r := splitOnChar c xs
    if x = c then [] :: r
    else
      match r with
      | [] => [[x]]
      | y :: ys => (x :: y) :: ys

/-- The `'Bearer '` scheme string checked by `authHeader.startsWith('Bearer ')`. -/
def bearerScheme : List Char := 'B' :: 'e' :: 'a' :: 'r' :: 'e' :: 'r' :: ' ' :: []

/-- `authHeader.split(' ')[1]` — the token extracted by authMiddleware.ts
line 15; a missing index yields `undefined`, which the following `!token`
check treats the same as the empty string, so both are embedded as `[]`. -/
def tokenOf (h : List Char) : List Char := (splitOnChar ' ' h).getD 1 []

/-- The development-mode branch of `authMiddleware` (authMiddleware.ts):
401 when the header is absent, not `Bearer `-prefixed, or has an empty
token; otherwise 400 when no dev secret is configured (or it is the empty
string, which is falsy) or the token differs from the secret; otherwise
`next()` with the fixed synthetic admin identity. The standard-mode branch
(`jwt.verify`) is cryptographic and is not needed by any claim. -/
def authMiddleware (devSecret : Option (List Char)) (header : Option (List Char)) :
    AuthOutcome :=
  match header with
  | none => .denied 401 "Access denied. No token provided."
  | some h =>
    if bearerScheme.isPrefixOf h then
      let token := tokenOf h
      if token = [] then .denied 401 "Access denied. No token provided."
      else
        match devSecret with
        | none => .denied 400 "Invalid token."
        | some s =>
          if s = [] then .denied 400 "Invalid token."
          else if token = s then .granted devClaims
          else .denied 400 "Invalid token."
    else .denied 401 "Access denied. No token provided."

/-- Structured error thrown by the pipeline: shape of the `AppError` class
in errorHandler.ts (every `AppError` sets `isOperational := true`, so the
flag is determined by the class and carries no extra state). -/
structure AppErrorT where
  message : String
  statusCode : Nat
deriving DecidableEq

/-- `requireRole` from roleMiddleware.ts: 401 when no claims are attached,
403 when the attached role is not in the required list, `next()` otherwise. -/
def requireRole (roles : List String) (user : Option Claims) :
    Except AppErrorT Unit :=
  match user with
  | none => .error { message := "Authentication required", statusCode := 401 }
  | some u =>
    if roles.contains u.role then .ok ()
    else .error { message := "Insufficient permissions", statusCode := 403 }

/-! ## Rate limiting

The two limiters in server.ts are instances of the `express-rate-limit`
dependency, whose source is not part of this repository. -/

/-- Per-key counter of a fixed rate-limit window. -/
structure WindowState where
  count : Nat
  windowStart : Nat
deriving DecidableEq

/-- Modelled from the spec: the fixed-window counting of the
`express-rate-limit` dependency (whose code is not in this repository) as
described in section 4.3 — one counter per key, incremented on each hit; a
new window resets the counter and restarts the clock at wall time of the
first hit of the window. -/
def hit (windowMs now : Nat) (s : Option WindowState) : WindowState :=
  match s with
  | none => { count := 1, windowStart := now }
  | some st =>
    if st.windowStart + windowMs ≤ now then { count := 1, windowStart := now }
    else { count := st.count + 1, windowStart := st.windowStart }

/-- Run a sequence of general-tier hits at the given times: the first
component is `true` iff every hit was within the limit `max`, the second is
the final window state. Rejected hits still count (the store increment
precedes the limit check). -/
def runHits (windowMs max : Nat) : Option WindowState → List Nat → Bool × Option WindowState
  | s, [] => (true, s)
  | s, t :: ts =>
    let st := hit windowMs t s
    let r := runHits windowMs max (some st) ts
    ((decide (st.count ≤ max)) && r.fst, r.snd)

/-- Modelled from the spec: one authentication-tier attempt under
`skipSuccessfulRequests: true` (section 4.3: counting only increments on
failed attempts). The hit is counted up front; when the attempt is allowed
through and the final response is successful the count is given back. The
first component is `true` iff the attempt was allowed (not throttled). -/
def authHit (windowMs max now : Nat) (success : Bool) (s : Option WindowState) :
    Bool × WindowState :=
  let st := hit windowMs now s
  if max < st.count then (false, st)
  else if success then (true, { count := st.count - 1, windowStart := st.windowStart })
  else (true, st)

/-- Run a sequence of authentication-tier attempts, each a (time, succeeded)
pair; `true` iff no attempt was throttled. -/
def runAuthHits (windowMs max : Nat) :
    Option WindowState → List (Nat × Bool) → Bool × Option WindowState
  | s, [] => (true, s)
  | s, a :: as =>
    let r := authHit windowMs max a.fst a.snd s
    let rest := runAuthHits windowMs max (some r.snd) as
    (r.fst && rest.fst, rest.snd)

/-! ## Version configuration (src/config/index.ts) -/

/-- A per-version configuration entry (`versionConfigSchema`): deprecation
data plus the general-tier rate-limit policy. -/
structure VersionConfig where
  deprecated : Bool
  sunsetDate : Option String
  message : Option String
  windowMs : Nat
  max : Nat
deriving DecidableEq

/-- `apiVersions.v1` from config/index.ts: not deprecated, no sunset date or
message configured, 1000 requests per 15-minute window. -/
def apiVersionsV1 : VersionConfig :=
  { deprecated := false, sunsetDate := none, message := none
    windowMs := 15 * 60 * 1000, max := 1000 }

/-- `apiVersions.v2` from config/index.ts. -/
def apiVersionsV2 : VersionConfig :=
  { deprecated := false, sunsetDate := none, message := none
    windowMs := 15 * 60 * 1000, max := 1000 }

/-- `config.api.supportedVersions` — only v1 is mounted. -/
def supportedVersions : List String := ["v1"]

/-- The hard-coded window of the authentication-tier limiter
(server.ts line 157). -/
def authLimiterWindowMs : Nat := 15 * 60 * 1000

/-- The hard-coded maximum of the authentication-tier limiter
(server.ts line 158). -/
def authLimiterMax : Nat := 5

/-! ## The per-version pipeline (server.ts lines 113-175)

For each supported version the server registers, in this order:
`app.use('/api/v/auth', authLimiter)` and then
`app.use('/api/v', reqHandler, apiLimiter, router)` where `router` begins
with `router.use(authMiddleware)`. A request whose path (relative to the
`/api/v` mount) falls under `/auth` therefore traverses the
authentication-tier limiter first and then, when allowed through, the same
stack as every other versioned request: the deprecation tagger, the
general limiter, the credential validator, and finally the business route. -/

/-- The pipeline stages, in the roles named by the spec. -/
inductive Stage where
  | authLimiterS
  | deprecationS
  | apiLimiterS
  | credValidatorS
  | handlerS
deriving DecidableEq

/-- A request as seen by the version mount: path relative to `/api/v`,
optional authorization header, arrival time, and the status the business
handler would respond with (business handlers are external collaborators,
abstracted as an oracle). -/
structure Req where
  path : List Char
  authHeader : Option (List Char)
  now : Nat
  handlerStatus : Nat
deriving DecidableEq

/-- The mutable state of one client key: its authentication-tier window and
its general-tier window (the limiters key by client; distinct keys never
interact, so one key's two windows suffice). -/
structure GwState where
  authSt : Option WindowState
  apiSt : Option WindowState
deriving DecidableEq

/-- The JSON body of a response, by shape:
`errObj` is the limiter rejection `(status, message)` object,
`msgObj` is the middleware denial `(message)` object,
`handlerOut` is the opaque business payload. -/
inductive RespBody where
  | errObj (status : String) (message : String)
  | msgObj (message : String)
  | handlerOut
deriving DecidableEq

/-- The fixed rejection message of both limiters. -/
def tooManyMsg : String := "Too many requests, please try again later."

/-- What a finished request produced: HTTP status, body, response headers
set so far, attached claims, whether a business route ran, the stages that
executed in order, and the final per-key limiter state. -/
structure GwResult where
  status : Nat
  body : RespBody
  headers : List (String × String)
  user : Option Claims
  handlerRan : Bool
  trace : List Stage
  state : GwState
deriving DecidableEq

/-- Whether a path (relative to the `/api/v` mount) falls under the
`/api/v/auth` mount: express matches the mount path exactly or followed by
a `/` segment boundary. -/
def underAuth (p : List Char) : Bool :=
  p = '/' :: 'a' :: 'u' :: 't' :: 'h' :: [] ||
    ('/' :: 'a' :: 'u' :: 't' :: 'h' :: '/' :: []).isPrefixOf p

/-- The relative path `/health` that the general limiter's `skip` option
exempts (server.ts line 143). -/
def healthPath : List Char := '/' :: 'h' :: 'e' :: 'a' :: 'l' :: 't' :: 'h' :: []

/-- `reqHandler` from server.ts lines 163-171: when the version is
deprecated, set the three deprecation headers (with the fallbacks `'TBD'`
and `'This version is deprecated'`); otherwise set nothing. -/
def deprecationHeaders (cfg : VersionConfig) : List (String × String) :=
  if cfg.deprecated then
    [("X-API-Deprecation", "true"),
     ("X-API-Sunset", cfg.sunsetDate.getD "TBD"),
     ("X-API-Deprecation-Info", cfg.message.getD "This version is deprecated")]
  else []

/-- The router stage of the mount: `authMiddleware` and, on success, the
business route. `hdrs` and `tr` are the headers and trace accumulated by
the earlier stages, `apiSt'` the already-updated general-tier window
(the `authSt` field is a placeholder filled in by `runPipeline`). -/
def mountRouter (devSecret : Option (List Char)) (req : Req)
    (hdrs : List (String × String)) (tr : List Stage)
    (apiSt' : Option WindowState) : GwResult :=
  match authMiddleware devSecret req.authHeader with
  | .denied s m =>
    { status := s, body := .msgObj m, headers := hdrs, user := none
      handlerRan := false, trace := tr ++ [.credValidatorS]
      state := { authSt := none, apiSt := apiSt' } }
  | .granted u =>
    { status := req.handlerStatus, body := .handlerOut, headers := hdrs
      user := some u, handlerRan := true
      trace := tr ++ [.credValidatorS, .handlerS]
      state := { authSt := none, apiSt := apiSt' } }

/-- Everything after the authentication-tier mount: `reqHandler` (the
deprecation tagger), then `apiLimiter` (skipped for `/health`, rejecting
with 429 and the fixed body when over the version's limit, counting the
hit either way), then the router. The `authSt` field of the returned state
is a placeholder filled in by `runPipeline`. -/
def runMount (cfg : VersionConfig) (devSecret : Option (List Char)) (req : Req)
    (apiSt : Option WindowState) : GwResult :=
  let hdrs := deprecationHeaders cfg
  if req.path = healthPath then
    mountRouter devSecret req hdrs [.deprecationS] apiSt
  else
    let st := hit cfg.windowMs req.now apiSt
    if cfg.max < st.count then
      { status := 429, body := .errObj "error" tooManyMsg, headers := hdrs
        user := none, handlerRan := false
        trace := [.deprecationS, .apiLimiterS]
        state := { authSt := none, apiSt := some st } }
    else
      mountRouter devSecret req hdrs [.deprecationS, .apiLimiterS] (some st)

/-- One request through the whole per-version registration: the
authentication-tier limiter for `/auth` paths (rejecting with 429 and the
limiter's `message` body when over its limit, refunding the hit when the
final response is successful, per `skipSuccessfulRequests`), then the
general mount. The `authSt` field inside `runMount`'s result is a
placeholder; this wrapper fills in both windows. -/
def runPipeline (cfg : VersionConfig) (devSecret : Option (List Char)) (req : Req)
    (st : GwState) : GwResult :=
  if underAuth req.path then
    let ast := hit authLimiterWindowMs req.now st.authSt
    if authLimiterMax < ast.count then
      { status := 429, body := .errObj "error" tooManyMsg, headers := []
        user := none, handlerRan := false, trace := [.authLimiterS]
        state := { authSt := some ast, apiSt := st.apiSt } }
    else
      let m := runMount cfg devSecret req st.apiSt
      let ast' :=
        if m.status < 400 then { count := ast.count - 1, windowStart := ast.windowStart }
        else ast
      { m with trace := .authLimiterS :: m.trace
               state := { authSt := some ast', apiSt := m.state.apiSt } }
  else
    let m := runMount cfg devSecret req st.apiSt
    { m with state := { authSt := st.authSt, apiSt := m.state.apiSt } }

/-! ## The error funnel (middlewares/errorHandler.ts) -/

/-- `NODE_ENV` as validated by config/index.ts. -/
inductive NodeEnv where
  | development
  | production
  | testEnv
deriving DecidableEq

/-- The slice of `config` the error handler reads: the deployment mode,
`config.api.currentVersion` and `config.app.version`. -/
structure EnvConfig where
  env : NodeEnv
  currentVersion : String
  appVersion : String
deriving DecidableEq

/-- A failure object reaching the error handler: its message, its optional
stack, and — when it was constructed as an `AppError` — its status code
(`instanceof AppError` is class membership, so `appCode.isSome` embeds it;
every `AppError` has `isOperational = true`, so the flag adds no state). -/
structure ThrownErr where
  message : String
  stack : Option String
  appCode : Option Nat
deriving DecidableEq

/-- The request fields the error handler reads. -/
structure ErrReq where
  url : String
  method : String
  ip : String
  path : List Char
deriving DecidableEq

/-- The object passed to `logger.error`. -/
structure LogEntry where
  message : String
  stack : Option String
  url : String
  method : String
  ip : String
  statusCode : Nat
  apiVersion : String
deriving DecidableEq

/-- The JSON response body built by the error handler; `stack` and
`appVersion` are spread in only in development mode, embedded as `none`
when the field is absent. -/
structure ErrorResponse where
  status : String
  statusCode : Nat
  message : String
  apiVersion : String
  stack : Option String
  appVersion : Option String
deriving DecidableEq

/-- The maximal leading run of decimal digits. -/
def takeDigits : List Char → List Char
  | [] => []
  | c :: cs => if c.isDigit then c :: takeDigits cs else []

/-- JavaScript `path.match(/v\d+/)?.[0]`: the first occurrence of a `v`
followed by at least one digit, taken greedily. -/
def findVMatch : List Char → Option (List Char)
  | [] => none
  | c :: cs =>
    if c = 'v' then
      match cs with
      | [] => none
      | d :: _ => if d.isDigit then some ('v' :: takeDigits cs) else findVMatch cs
    else findVMatch cs

/-- `errorHandler` from errorHandler.ts: classify the failure (an
`AppError` keeps its status code and message, anything else becomes a 500
with a generic message), log it with the version parsed from the path
(falling back to the configured current version), suppress the message of
a 500 in production, and answer with the uniform envelope carrying the
configured current version — plus stack and app version in development. -/
def errorHandler (cfg : EnvConfig) (req : ErrReq) (err : ThrownErr) :
    LogEntry × ErrorResponse :=
  let statusCode := match err.appCode with | some c => c | none => 500
  let message := match err.appCode with | some _ => err.message | none => "Internal Server Error"
  let lg : LogEntry :=
    { message := err.message, stack := err.stack, url := req.url
      method := req.method, ip := req.ip, statusCode := statusCode
      apiVersion :=
        match findVMatch req.path with
        | some l => String.mk l
        | none => cfg.currentVersion }
  let responseMessage :=
    if cfg.env = .production ∧ statusCode = 500 then "Internal Server Error" else message
  let resp : ErrorResponse :=
    { status := "error", statusCode := statusCode, message := responseMessage
      apiVersion := cfg.currentVersion
      stack := if cfg.env = .development then err.stack else none
      appVersion := if cfg.env = .development then some cfg.appVersion else none }
  (lg, resp)

/-! ## Helper lemmas -/

/-- A list free of the separator splits into itself alone. -/
theorem splitOnChar_not_mem (c : Char) (s : List Char) (h : c ∉ s) :
    splitOnChar c s = [s] := by
  induction s with
  | nil => rfl
  | cons x xs ih =>
    have hx : ¬x = c := fun hc => h (hc ▸ List.mem_cons_self x xs)
    have hxs : c ∉ xs := fun hc => h (List.mem_cons_of_mem x hc)
    simp [splitOnChar, hx, ih hxs]

/-- Extracting the token from a well-formed bearer header with a space-free
token gives back the token. -/
theorem tokenOf_bearer (t : List Char) (h : ' ' ∉ t) :
    tokenOf (bearerScheme ++ t) = t := by
  simp [tokenOf, bearerScheme, splitOnChar, splitOnChar_not_mem ' ' t h]

/-- A list is a prefix of itself followed by anything. -/
theorem isPrefixOf_append_self (l t : List Char) : l.isPrefixOf (l ++ t) = true := by
  simp [List.isPrefixOf_iff_prefix]

/-- A header that is missing or does not carry the `Bearer ` scheme. -/
def lacksBearer (h : Option (List Char)) : Bool :=
  match h with
  | none => true
  | some s => !(bearerScheme.isPrefixOf s)

/-- The credential validator denies scheme-less requests with 401. -/
theorem authMiddleware_lacksBearer (devSecret : Option (List Char))
    (h : Option (List Char)) (hl : lacksBearer h = true) :
    authMiddleware devSecret h = .denied 401 "Access denied. No token provided." := by
  cases h with
  | none => rfl
  | some s =>
    have : bearerScheme.isPrefixOf s = false := by
      simpa [lacksBearer] using hl
    simp [authMiddleware, this]

/-- `underAuth` paths are never the exempted `/health` path. -/
theorem underAuth_ne_health (p : List Char) (h : underAuth p = true) : p ≠ healthPath := by
  intro hc
  rw [hc] at h
  exact absurd h (by decide)

/-! ## C9 — the role authorizer -/

/-- C9: for every required-role list and request, `requireRole` fails with
status 401 when no claims are attached, fails with status 403 when the
attached role is not in the required list, and passes through otherwise. -/
theorem requireRole_spec (roles : List String) (user : Option Claims) :
    (user = none →
      requireRole roles user = .error ⟨"Authentication required", 401⟩) ∧
    (∀ u, user = some u → u.role ∉ roles →
      requireRole roles user = .error ⟨"Insufficient permissions", 403⟩) ∧
    (∀ u, user = some u → u.role ∈ roles → requireRole roles user = .ok ()) := by
  refine ⟨fun h => by rw [h]; rfl, fun u h hmem => ?_, fun u h hmem => ?_⟩ <;>
    subst h <;> simp [requireRole, hmem]

/-- C9 witness: the three cases of `requireRole_spec` at concrete inputs. -/
theorem requireRole_spec_inst :
    requireRole ["admin"] none = .error ⟨"Authentication required", 401⟩ ∧
    requireRole ["owner"] (some devClaims) = .error ⟨"Insufficient permissions", 403⟩ ∧
    requireRole ["admin"] (some devClaims) = .ok () :=
  ⟨(requireRole_spec ["admin"] none).1 rfl,
   (requireRole_spec ["owner"] (some devClaims)).2.1 devClaims rfl (by decide),
   (requireRole_spec ["admin"] (some devClaims)).2.2 devClaims rfl (by decide)⟩

/-! ## C10 — the response's API version field -/

/-- C10: the error response body always carries the configured current API
version, the version parsed from the request path (with fallback to the
configured current version) appears only in the log entry, and the
response is independent of the request entirely. -/
theorem errorHandler_apiVersion_current (cfg : EnvConfig) (req : ErrReq) (err : ThrownErr) :
    (errorHandler cfg req err).2.apiVersion = cfg.currentVersion ∧
    (errorHandler cfg req err).1.apiVersion =
      (match findVMatch req.path with
       | some l => String.mk l
       | none => cfg.currentVersion) ∧
    ∀ req' : ErrReq, (errorHandler cfg req err).2 = (errorHandler cfg req' err).2 :=
  ⟨rfl, rfl, fun _ => rfl⟩

/-! ## Counterexamples -/

/-- C1 counterexample: a request to `/tasks` with no authorization header
is answered 401 and runs no handler, but the general rate-limit counter for
the client's key IS incremented (from no window to a count of 1), because
`apiLimiter` is mounted before the credential validator. -/
theorem missing_header_counts_budget_cex :
    (runPipeline apiVersionsV1 none ⟨"/tasks".toList, none, 0, 200⟩
        ⟨none, none⟩).status = 401 ∧
    (runPipeline apiVersionsV1 none ⟨"/tasks".toList, none, 0, 200⟩
        ⟨none, none⟩).handlerRan = false ∧
    (runPipeline apiVersionsV1 none ⟨"/tasks".toList, none, 0, 200⟩
        ⟨none, none⟩).state.apiSt = some ⟨1, 0⟩ := by
  decide

/-- C2 counterexample: a successful request to `/tasks` executes the
deprecation tagger first, then the general rate limiter, and only then the
credential validator — not validator first with tagging after rate-limit
accounting as claimed. -/
theorem pipeline_stage_order_cex :
    (runPipeline apiVersionsV1 (some "s".toList)
        ⟨"/tasks".toList, some "Bearer s".toList, 0, 200⟩ ⟨none, none⟩).trace =
      [Stage.deprecationS, Stage.apiLimiterS, Stage.credValidatorS, Stage.handlerS] ∧
    (runPipeline apiVersionsV1 (some "s".toList)
        ⟨"/tasks".toList, some "Bearer s".toList, 0, 200⟩ ⟨none, none⟩).handlerRan = true ∧
    (runPipeline apiVersionsV1 (some "s".toList)
        ⟨"/tasks".toList, some "Bearer s".toList, 0, 200⟩ ⟨none, none⟩).trace ≠
      [Stage.credValidatorS, Stage.deprecationS, Stage.apiLimiterS, Stage.handlerS] := by
  decide

/-- C3 counterexample: a request under `/auth` consumes general-tier budget
(first conjunct: the general window goes from absent to count 1), and a
request under `/auth` can be rejected by the general limiter (second
conjunct: with the general window exhausted at 1000, the auth request gets
429 from the general limiter stage, whose trace it reaches). -/
theorem auth_paths_hit_general_limiter_cex :
    (runPipeline apiVersionsV1 (some "s".toList)
        ⟨"/auth/login".toList, some "Bearer s".toList, 0, 200⟩
        ⟨none, none⟩).state.apiSt = some ⟨1, 0⟩ ∧
    (runPipeline apiVersionsV1 (some "s".toList)
        ⟨"/auth/login".toList, some "Bearer s".toList, 0, 200⟩
        ⟨none, some ⟨1000, 0⟩⟩).status = 429 ∧
    (runPipeline apiVersionsV1 (some "s".toList)
        ⟨"/auth/login".toList, some "Bearer s".toList, 0, 200⟩
        ⟨none, some ⟨1000, 0⟩⟩).trace =
      [Stage.authLimiterS, Stage.deprecationS, Stage.apiLimiterS] := by
  decide

/-- C5 counterexample: with the configured development secret `a b` (which
contains a space), the request bearing exactly `Bearer a b` fails with 400
instead of passing, because the middleware compares only the first
space-delimited chunk after the scheme. -/
theorem dev_auth_space_secret_cex :
    authMiddleware (some "a b".toList) (some "Bearer a b".toList) =
      .denied 400 "Invalid token." ∧
    authMiddleware (some "a b".toList) (some "Bearer a b".toList) ≠
      .granted devClaims := by
  decide

/-- C7 counterexample: with a deprecated version configuration, a request
under `/auth` that the authentication-tier limiter rejects is answered 429
with NO deprecation headers, because that limiter is mounted before the
deprecation tagger. -/
theorem deprecation_headers_missing_cex :
    (VersionConfig.deprecated ⟨true, none, none, 15 * 60 * 1000, 1000⟩ = true) ∧
    (runPipeline ⟨true, none, none, 15 * 60 * 1000, 1000⟩ none
        ⟨"/auth/login".toList, none, 0, 200⟩ ⟨some ⟨5, 0⟩, none⟩).status = 429 ∧
    (runPipeline ⟨true, none, none, 15 * 60 * 1000, 1000⟩ none
        ⟨"/auth/login".toList, none, 0, 200⟩ ⟨some ⟨5, 0⟩, none⟩).headers = [] := by
  decide

/-- C8 counterexample: an operational `AppError` with explicit status code
500 in production mode is answered with the generic message, not the
error's own message `boom`. -/
theorem operational_500_production_cex :
    (errorHandler ⟨.production, "v1", "1.0.0"⟩
        ⟨"/api/v1/tasks", "GET", "203.0.113.7", "/api/v1/tasks".toList⟩
        ⟨"boom", some "trace", some 500⟩).2.statusCode = 500 ∧
    (errorHandler ⟨.production, "v1", "1.0.0"⟩
        ⟨"/api/v1/tasks", "GET", "203.0.113.7", "/api/v1/tasks".toList⟩
        ⟨"boom", some "trace", some 500⟩).2.message = "Internal Server Error" ∧
    (errorHandler ⟨.production, "v1", "1.0.0"⟩
        ⟨"/api/v1/tasks", "GET", "203.0.113.7", "/api/v1/tasks".toList⟩
        ⟨"boom", some "trace", some 500⟩).2.message ≠ "boom" := by
  refine ⟨rfl, rfl, ?_⟩
  decide

/-! ## Structural lemmas about the mount -/

/-- Every response leaving the general mount carries exactly the headers
set by the deprecation tagger, which always runs first. -/
theorem runMount_headers (cfg : VersionConfig) (ds : Option (List Char)) (req : Req)
    (apiSt : Option WindowState) :
    (runMount cfg ds req apiSt).headers = deprecationHeaders cfg := by
  by_cases hp : req.path = healthPath
  · simp only [runMount, if_pos hp, mountRouter]
    cases authMiddleware ds req.authHeader <;> rfl
  · simp only [runMount, if_neg hp]
    by_cases hover : cfg.max < (hit cfg.windowMs req.now apiSt).count
    · simp [hover]
    · simp only [if_neg hover, mountRouter]
      cases authMiddleware ds req.authHeader <;> rfl

/-- For non-`/health` paths the general mount always counts the hit. -/
theorem runMount_apiSt (cfg : VersionConfig) (ds : Option (List Char)) (req : Req)
    (apiSt : Option WindowState) (hp : req.path ≠ healthPath) :
    (runMount cfg ds req apiSt).state.apiSt = some (hit cfg.windowMs req.now apiSt) := by
  simp only [runMount, if_neg hp]
  by_cases hover : cfg.max < (hit cfg.windowMs req.now apiSt).count
  · simp [hover]
  · simp only [if_neg hover, mountRouter]
    cases authMiddleware ds req.authHeader <;> rfl

/-- A request over the general limit is rejected with 429 and the fixed
body, after the deprecation tagger and the limiter have run. -/
theorem runMount_over (cfg : VersionConfig) (ds : Option (List Char)) (req : Req)
    (apiSt : Option WindowState) (hp : req.path ≠ healthPath)
    (hover : cfg.max < (hit cfg.windowMs req.now apiSt).count) :
    runMount cfg ds req apiSt =
      { status := 429, body := .errObj "error" tooManyMsg
        headers := deprecationHeaders cfg, user := none, handlerRan := false
        trace := [.deprecationS, .apiLimiterS]
        state := { authSt := none, apiSt := some (hit cfg.windowMs req.now apiSt) } } := by
  simp [runMount, hp, hover]

/-- When the mount ends in the business handler, its trace is the tagger,
the limiter (absent only for `/health`), the validator, the handler. -/
theorem runMount_trace (cfg : VersionConfig) (ds : Option (List Char)) (req : Req)
    (apiSt : Option WindowState)
    (h : (runMount cfg ds req apiSt).handlerRan = true) :
    (runMount cfg ds req apiSt).trace =
      [Stage.deprecationS] ++
      (if req.path = healthPath then [] else [Stage.apiLimiterS]) ++
      [Stage.credValidatorS, Stage.handlerS] := by
  by_cases hp : req.path = healthPath
  · simp only [runMount, if_pos hp, mountRouter] at h ⊢
    cases ham : authMiddleware ds req.authHeader <;> simp [ham] at h ⊢
  · simp only [runMount, if_neg hp] at h ⊢
    by_cases hover : cfg.max < (hit cfg.windowMs req.now apiSt).count
    · simp [hover] at h
    · simp only [if_neg hover, mountRouter] at h ⊢
      cases ham : authMiddleware ds req.authHeader <;> simp [ham] at h ⊢

/-! ## C1 — missing credential short-circuits, but after counting -/

/-- C1 (amended): a request to a versioned business route (not `/health`,
not under `/auth`) lacking the authorization header or the `Bearer `
scheme, arriving with general-tier budget remaining, is answered 401 with
no claims attached and no handler run — but the general rate-limit counter
for the client's key IS incremented, because the limiter is mounted before
the credential validator. -/
theorem missing_header_401_no_handler (cfg : VersionConfig) (ds : Option (List Char))
    (req : Req) (st : GwState)
    (h1 : lacksBearer req.authHeader = true)
    (h2 : req.path ≠ healthPath)
    (h3 : underAuth req.path = false)
    (h4 : (hit cfg.windowMs req.now st.apiSt).count ≤ cfg.max) :
    (runPipeline cfg ds req st).status = 401 ∧
    (runPipeline cfg ds req st).handlerRan = false ∧
    (runPipeline cfg ds req st).user = none ∧
    (runPipeline cfg ds req st).state.apiSt =
      some (hit cfg.windowMs req.now st.apiSt) := by
  have ham := authMiddleware_lacksBearer ds req.authHeader h1
  have hnot : ¬cfg.max < (hit cfg.windowMs req.now st.apiSt).count := Nat.not_lt.mpr h4
  simp [runPipeline, h3, runMount, h2, hnot, mountRouter, ham]

/-- C1 witness: the amended statement at a concrete request. -/
theorem missing_header_401_no_handler_inst :
    (runPipeline apiVersionsV1 none ⟨"/tasks".toList, none, 5, 200⟩
        ⟨none, none⟩).status = 401 ∧
    (runPipeline apiVersionsV1 none ⟨"/tasks".toList, none, 5, 200⟩
        ⟨none, none⟩).handlerRan = false ∧
    (runPipeline apiVersionsV1 none ⟨"/tasks".toList, none, 5, 200⟩
        ⟨none, none⟩).user = none ∧
    (runPipeline apiVersionsV1 none ⟨"/tasks".toList, none, 5, 200⟩
        ⟨none, none⟩).state.apiSt = some ⟨1, 5⟩ :=
  missing_header_401_no_handler apiVersionsV1 none ⟨"/tasks".toList, none, 5, 200⟩
    ⟨none, none⟩ (by decide) (by decide) (by decide) (by decide)

/-! ## C2 — the actual stage order -/

/-- C2 (amended): every request that reaches the business handler has
traversed, in order: the authentication-tier limiter (only for `/auth`
paths), the deprecation tagger, the general rate limiter (skipped only for
`/health`), and then the credential validator — i.e. deprecation tagging
executes BEFORE rate-limit accounting, and credential validation after
both, not validator-first as claimed. -/
theorem pipeline_stage_order (cfg : VersionConfig) (ds : Option (List Char))
    (req : Req) (st : GwState)
    (h : (runPipeline cfg ds req st).handlerRan = true) :
    (runPipeline cfg ds req st).trace =
      (if underAuth req.path then [Stage.authLimiterS] else []) ++
      [Stage.deprecationS] ++
      (if req.path = healthPath then [] else [Stage.apiLimiterS]) ++
      [Stage.credValidatorS, Stage.handlerS] := by
  by_cases hu : underAuth req.path = true
  · by_cases hl : authLimiterMax < (hit authLimiterWindowMs req.now st.authSt).count
    · exfalso
      simp [runPipeline, hu, hl] at h
    · simp only [runPipeline, hu, if_pos, if_neg hl] at h ⊢
      rw [runMount_trace cfg ds req st.apiSt h]
      simp
  · have hu' : underAuth req.path = false := by
      cases hv : underAuth req.path
      · rfl
      · exact absurd hv hu
    simp only [runPipeline, hu', Bool.false_eq_true, if_false] at h ⊢
    rw [runMount_trace cfg ds req st.apiSt h]
    simp

/-- C2 witness: the amended order at a concrete successful request. -/
theorem pipeline_stage_order_inst :
    (runPipeline apiVersionsV1 (some "s".toList)
        ⟨"/tasks".toList, some "Bearer s".toList, 7, 200⟩ ⟨none, none⟩).trace =
      [Stage.deprecationS, Stage.apiLimiterS, Stage.credValidatorS, Stage.handlerS] := by
  have := pipeline_stage_order apiVersionsV1 (some "s".toList)
    ⟨"/tasks".toList, some "Bearer s".toList, 7, 200⟩ ⟨none, none⟩ (by decide)
  simpa using this

/-! ## C3 — `/auth` paths pass through both limiters -/

/-- C3 (amended): a request under `/auth` that the authentication-tier
limiter lets through ALSO hits the general limiter: it always consumes
general-tier budget, and when the general window is over its limit it is
rejected with 429 and the fixed body by the general limiter. -/
theorem auth_paths_hit_general_limiter (cfg : VersionConfig) (ds : Option (List Char))
    (req : Req) (st : GwState)
    (h1 : underAuth req.path = true)
    (h2 : (hit authLimiterWindowMs req.now st.authSt).count ≤ authLimiterMax) :
    (runPipeline cfg ds req st).state.apiSt =
      some (hit cfg.windowMs req.now st.apiSt) ∧
    (cfg.max < (hit cfg.windowMs req.now st.apiSt).count →
      (runPipeline cfg ds req st).status = 429 ∧
      (runPipeline cfg ds req st).body = .errObj "error" tooManyMsg ∧
      (runPipeline cfg ds req st).handlerRan = false) := by
  have hp := underAuth_ne_health req.path h1
  have hnot : ¬authLimiterMax < (hit authLimiterWindowMs req.now st.authSt).count :=
    Nat.not_lt.mpr h2
  simp only [runPipeline, h1, if_pos, if_neg hnot]
  refine ⟨by simpa using runMount_apiSt cfg ds req st.apiSt hp, fun hover => ?_⟩
  rw [runMount_over cfg ds req st.apiSt hp hover]
  simp

/-- C3 witness: the amended statement at concrete requests. -/
theorem auth_paths_hit_general_limiter_inst :
    (runPipeline apiVersionsV1 none ⟨"/auth/login".toList, none, 3, 200⟩
        ⟨none, some ⟨1000, 0⟩⟩).state.apiSt = some ⟨1001, 0⟩ ∧
    (runPipeline apiVersionsV1 none ⟨"/auth/login".toList, none, 3, 200⟩
        ⟨none, some ⟨1000, 0⟩⟩).status = 429 := by
  have := auth_paths_hit_general_limiter apiVersionsV1 none
    ⟨"/auth/login".toList, none, 3, 200⟩ ⟨none, some ⟨1000, 0⟩⟩ (by decide) (by decide)
  exact ⟨this.1, (this.2 (by decide)).1⟩

/-! ## C7 — deprecation headers -/

/-- C7 (amended): every request that the authentication-tier limiter does
not reject carries exactly the three deprecation headers when the version
configuration is deprecated, and none of them otherwise; a request
rejected by the authentication-tier limiter (possible only under `/auth`)
carries none either way, because that limiter is mounted before the
deprecation tagger. -/
theorem deprecation_headers_characterization (cfg : VersionConfig)
    (ds : Option (List Char)) (req : Req) (st : GwState)
    (h : underAuth req.path = true →
      (hit authLimiterWindowMs req.now st.authSt).count ≤ authLimiterMax) :
    (runPipeline cfg ds req st).headers =
      (if cfg.deprecated then
        [("X-API-Deprecation", "true"),
         ("X-API-Sunset", cfg.sunsetDate.getD "TBD"),
         ("X-API-Deprecation-Info", cfg.message.getD "This version is deprecated")]
       else []) := by
  rw [show (if cfg.deprecated then
        [("X-API-Deprecation", "true"),
         ("X-API-Sunset", cfg.sunsetDate.getD "TBD"),
         ("X-API-Deprecation-Info", cfg.message.getD "This version is deprecated")]
       else []) = deprecationHeaders cfg from rfl]
  by_cases hu : underAuth req.path = true
  · have hnot : ¬authLimiterMax < (hit authLimiterWindowMs req.now st.authSt).count :=
      Nat.not_lt.mpr (h hu)
    simp only [runPipeline, hu, if_pos, if_neg hnot]
    simpa using runMount_headers cfg ds req st.apiSt
  · have hu' : underAuth req.path = false := by
      cases hv : underAuth req.path
      · rfl
      · exact absurd hv hu
    simp only [runPipeline, hu', Bool.false_eq_true, if_false]
    simpa using runMount_headers cfg ds req st.apiSt

/-- C7 witness: a deprecated configuration yields exactly the three
headers on an ordinary request. -/
theorem deprecation_headers_characterization_inst :
    (runPipeline ⟨true, some "2026-12-31", some "v1 is deprecated", 15 * 60 * 1000, 1000⟩
        none ⟨"/tasks".toList, none, 0, 200⟩ ⟨none, none⟩).headers =
      [("X-API-Deprecation", "true"),
       ("X-API-Sunset", "2026-12-31"),
       ("X-API-Deprecation-Info", "v1 is deprecated")] := by
  have := deprecation_headers_characterization
    ⟨true, some "2026-12-31", some "v1 is deprecated", 15 * 60 * 1000, 1000⟩
    none ⟨"/tasks".toList, none, 0, 200⟩ ⟨none, none⟩ (fun _ => by decide)
  simpa using this

/-! ## C5 — development-mode credential validation -/

/-- C5 (amended): in development mode with a configured non-empty secret
containing no space, a request bearing exactly `Bearer S` passes and
attaches the fixed synthetic admin identity; a request bearing `Bearer t`
for any non-empty space-free token `t ≠ S` fails with 400; and with no
configured secret any bearer request fails with 400. (The restriction to
space-free values is forced: the middleware compares only the first
space-delimited chunk after the scheme, so a secret containing a space can
never validate.) -/
theorem dev_auth_space_free_token (s t : List Char)
    (hs : s ≠ []) (hs' : ' ' ∉ s) (ht : t ≠ []) (ht' : ' ' ∉ t) :
    authMiddleware (some s) (some (bearerScheme ++ s)) = .granted devClaims ∧
    (t ≠ s →
      authMiddleware (some s) (some (bearerScheme ++ t)) =
        .denied 400 "Invalid token.") ∧
    authMiddleware none (some (bearerScheme ++ t)) =
      .denied 400 "Invalid token." := by
  refine ⟨?_, fun hne => ?_, ?_⟩
  · simp [authMiddleware, isPrefixOf_append_self, tokenOf_bearer s hs', hs]
  · simp [authMiddleware, isPrefixOf_append_self, tokenOf_bearer t ht', ht, hs, hne]
  · simp [authMiddleware, isPrefixOf_append_self, tokenOf_bearer t ht', ht]

/-- C5 witness: the three cases at concrete secrets and tokens. -/
theorem dev_auth_space_free_token_inst :
    authMiddleware (some "sek".toList) (some (bearerScheme ++ "sek".toList)) =
      .granted devClaims ∧
    authMiddleware (some "sek".toList) (some (bearerScheme ++ "bad".toList)) =
      .denied 400 "Invalid token." ∧
    authMiddleware none (some (bearerScheme ++ "bad".toList)) =
      .denied 400 "Invalid token." := by
  have h := dev_auth_space_free_token "sek".toList "bad".toList
    (by decide) (by decide) (by decide) (by decide)
  exact ⟨h.1, h.2.1 (by decide), h.2.2⟩

/-! ## Lemmas about fixed-window counting -/

/-- A hit within the open window increments the counter and keeps the
window start. -/
theorem hit_in_window (W c w t : Nat) (h : t < w + W) :
    hit W t (some ⟨c, w⟩) = ⟨c + 1, w⟩ := by
  simp only [hit]
  rw [if_neg (by omega)]

/-- A hit at or after the window's end resets the counter to 1 and
restarts the clock. -/
theorem hit_fresh (W c w t : Nat) (h : w + W ≤ t) :
    hit W t (some ⟨c, w⟩) = ⟨1, t⟩ := by
  simp only [hit]
  rw [if_pos h]

/-- Hits all within the window accumulate onto the counter. -/
theorem runHits_snd (W max : Nat) (ts : List Nat) (c w : Nat)
    (h : ∀ t ∈ ts, t < w + W) :
    (runHits W max (some ⟨c, w⟩) ts).snd = some ⟨c + ts.length, w⟩ := by
  induction ts generalizing c with
  | nil => simp [runHits]
  | cons t ts ih =>
    have ht : t < w + W := h t (by simp)
    have hrest : ∀ x ∈ ts, x < w + W := fun x hx => h x (by simp [hx])
    simp only [runHits, hit_in_window W c w t ht, ih (c + 1) hrest, List.length_cons]
    congr 2
    omega

/-- Hits all within the window are all allowed as long as the final count
stays within the limit. -/
theorem runHits_fst_ok (W max : Nat) (ts : List Nat) (c w : Nat)
    (h : ∀ t ∈ ts, t < w + W) (hle : c + ts.length ≤ max) :
    (runHits W max (some ⟨c, w⟩) ts).fst = true := by
  induction ts generalizing c with
  | nil => simp [runHits]
  | cons t ts ih =>
    have ht : t < w + W := h t (by simp)
    have hrest : ∀ x ∈ ts, x < w + W := fun x hx => h x (by simp [hx])
    rw [List.length_cons] at hle
    have h1 : c + 1 ≤ max := by omega
    have h2 : c + 1 + ts.length ≤ max := by omega
    simp [runHits, hit_in_window W c w t ht, ih (c + 1) hrest h2, h1]

/-- Splitting a run of hits at an append boundary. -/
theorem runHits_append (W max : Nat) (s : Option WindowState) (l1 l2 : List Nat) :
    runHits W max s (l1 ++ l2) =
      ((runHits W max s l1).fst && (runHits W max (runHits W max s l1).snd l2).fst,
       (runHits W max (runHits W max s l1).snd l2).snd) := by
  induction l1 generalizing s with
  | nil => simp [runHits]
  | cons t l1 ih =>
    simp only [List.cons_append, runHits, List.append_eq]
    rw [ih (some (hit W t s)), Bool.and_assoc]

/-! ## C4 — the general limiter -/

/-- C4: with a policy of `N` requests per window `W` (as the v1
configuration sets: N = 1000, W = 15 minutes — last conjunct), the first
`N` hits of a key within one window are all allowed and exhaust the
counter; one more hit within the window is disallowed, and the pipeline
answers such a request with 429 and the fixed JSON body; and a hit in a
fresh window is allowed again regardless of the old counter value. -/
theorem general_limiter_window_behavior (W N : Nat) (hN : 0 < N) (t0 : Nat)
    (ts : List Nat) (hts : ∀ t ∈ ts, t < t0 + W) (hlen : ts.length + 1 = N)
    (t' : Nat) (ht' : t' < t0 + W) (t'' : Nat) (ht'' : t0 + W ≤ t'') (c : Nat) :
    (runHits W N none (t0 :: ts)).fst = true ∧
    (runHits W N none (t0 :: ts)).snd = some ⟨N, t0⟩ ∧
    (runHits W N none ((t0 :: ts) ++ [t'])).fst = false ∧
    (∀ (dep : Bool) (sd msg : Option String) (ds : Option (List Char))
        (p : List Char) (hh : Option (List Char)) (hs ast : _),
      underAuth p = false → p ≠ healthPath →
      (runPipeline ⟨dep, sd, msg, W, N⟩ ds ⟨p, hh, t', hs⟩
          ⟨ast, some ⟨N, t0⟩⟩).status = 429 ∧
      (runPipeline ⟨dep, sd, msg, W, N⟩ ds ⟨p, hh, t', hs⟩
          ⟨ast, some ⟨N, t0⟩⟩).body = .errObj "error" tooManyMsg ∧
      (runPipeline ⟨dep, sd, msg, W, N⟩ ds ⟨p, hh, t', hs⟩
          ⟨ast, some ⟨N, t0⟩⟩).handlerRan = false) ∧
    (runHits W N (some ⟨c, t0⟩) [t'']).fst = true ∧
    apiVersionsV1.max = 1000 ∧ apiVersionsV1.windowMs = 15 * 60 * 1000 := by
  have hfirst : hit W t0 none = ⟨1, t0⟩ := rfl
  have hsnd : (runHits W N none (t0 :: ts)).snd = some ⟨N, t0⟩ := by
    simp only [runHits, hfirst, runHits_snd W N ts 1 t0 hts]
    congr 2
    omega
  have hover : hit W t' (some ⟨N, t0⟩) = ⟨N + 1, t0⟩ := hit_in_window W N t0 t' ht'
  refine ⟨?_, hsnd, ?_, ?_, ?_, rfl, rfl⟩
  · simp only [runHits, hfirst]
    have hok := runHits_fst_ok W N ts 1 t0 hts (by omega)
    simp [hok]
    omega
  · rw [runHits_append]
    rw [hsnd]
    simp [runHits, hover]
  · intro dep sd msg ds p hh hs ast hu hp
    have hov : (⟨dep, sd, msg, W, N⟩ : VersionConfig).max <
        (hit W t' (some ⟨N, t0⟩)).count := by
      rw [hover]; exact Nat.lt_succ_self N
    simp only [runPipeline, hu, Bool.false_eq_true, if_false]
    rw [runMount_over ⟨dep, sd, msg, W, N⟩ ds ⟨p, hh, t', hs⟩ (some ⟨N, t0⟩) hp hov]
    simp
  · simp [runHits, hit_fresh W c t0 t'' ht'']
    omega

/-- C4 witness: the window behavior at a small concrete policy (two
requests per ten-millisecond window). -/
theorem general_limiter_window_behavior_inst :
    (runHits 10 2 none [0, 1]).fst = true ∧
    (runHits 10 2 none [0, 1]).snd = some ⟨2, 0⟩ ∧
    (runHits 10 2 none ([0, 1] ++ [3])).fst = false ∧
    (runPipeline ⟨false, none, none, 10, 2⟩ none
        ⟨"/tasks".toList, none, 3, 200⟩ ⟨none, some ⟨2, 0⟩⟩).status = 429 ∧
    (runPipeline ⟨false, none, none, 10, 2⟩ none
        ⟨"/tasks".toList, none, 3, 200⟩ ⟨none, some ⟨2, 0⟩⟩).body =
      .errObj "error" tooManyMsg ∧
    (runHits 10 2 (some ⟨7, 0⟩) [10]).fst = true := by
  have h := general_limiter_window_behavior 10 2 (by decide) 0 [1] (by decide) rfl
    3 (by decide) 10 (by decide) 7
  have h4 := h.2.2.2.1 false none none none "/tasks".toList none 200 none
    (by decide) (by decide)
  exact ⟨h.1, h.2.1, h.2.2.1, h4.1, h4.2.1, h.2.2.2.2.1⟩

/-! ## Lemmas about authentication-tier counting -/

/-- A failed attempt within the window and within the limit is allowed and
keeps its increment. -/
theorem authHit_fail_ok (W max c w t : Nat) (ht : t < w + W) (hle : c + 1 ≤ max) :
    authHit W max t false (some ⟨c, w⟩) = (true, ⟨c + 1, w⟩) := by
  simp [authHit, hit_in_window W c w t ht, Nat.not_lt.mpr hle]

/-- An attempt of either kind within the window is throttled once the
incremented count exceeds the limit. -/
theorem authHit_over (W max c w t : Nat) (b : Bool) (ht : t < w + W)
    (hov : max < c + 1) :
    authHit W max t b (some ⟨c, w⟩) = (false, ⟨c + 1, w⟩) := by
  simp [authHit, hit_in_window W c w t ht, hov]

/-- A run of failed attempts within the window and within the limit is
fully allowed and accumulates onto the counter. -/
theorem runAuthFails (W max : Nat) (ts : List Nat) (c w : Nat)
    (h : ∀ t ∈ ts, t < w + W) (hle : c + ts.length ≤ max) :
    runAuthHits W max (some ⟨c, w⟩) (ts.map fun t => (t, false)) =
      (true, some ⟨c + ts.length, w⟩) := by
  induction ts generalizing c with
  | nil => simp [runAuthHits]
  | cons t ts ih =>
    rw [List.length_cons] at hle
    have ht : t < w + W := h t (by simp)
    have hrest : ∀ x ∈ ts, x < w + W := fun x hx => h x (by simp [hx])
    have h3 : c + 1 + ts.length = c + (ts.length + 1) := by omega
    simp only [List.map_cons, runAuthHits, authHit_fail_ok W max c w t ht (by omega),
      ih (c + 1) hrest (by omega), List.length_cons]
    rw [h3]
    simp

/-- A run of successful attempts starting from a zero counter is fully
allowed and leaves the counter at zero: each success is counted up front
and given back when the response succeeds. -/
theorem runAuthSuccess_zero (W max : Nat) (hmax : 0 < max) (ss : List Nat) (w : Nat) :
    (runAuthHits W max (some ⟨0, w⟩) (ss.map fun t => (t, true))).fst = true ∧
    ∃ w', (runAuthHits W max (some ⟨0, w⟩) (ss.map fun t => (t, true))).snd =
      some ⟨0, w'⟩ := by
  induction ss generalizing w with
  | nil => exact ⟨rfl, w, rfl⟩
  | cons t ss ih =>
    by_cases hr : w + W ≤ t
    · have hstep : authHit W max t true (some ⟨0, w⟩) = (true, ⟨0, t⟩) := by
        simp [authHit, hit, hr, Nat.not_lt.mpr hmax]
      simp only [List.map_cons, runAuthHits, hstep]
      exact ⟨by simp [(ih t).1], (ih t).2⟩
    · have hstep : authHit W max t true (some ⟨0, w⟩) = (true, ⟨0, w⟩) := by
        simp [authHit, hit, hr, Nat.not_lt.mpr hmax]
      simp only [List.map_cons, runAuthHits, hstep]
      exact ⟨by simp [(ih w).1], (ih w).2⟩

/-! ## C6 — the authentication-tier limiter counts only failures -/

/-- C6: under the authentication-tier policy (5 attempts per 15-minute
window — last conjuncts), 5 consecutive failed attempts from one key are
all allowed and exhaust the budget; the 6th attempt of either kind within
the window is throttled, and the pipeline answers such a request under
`/auth` with 429 and the fixed body; while any number of successful logins
is never throttled and leaves the budget untouched (counter zero). -/
theorem auth_limiter_counts_failures_only (t0 : Nat) (ts : List Nat)
    (hts : ∀ t ∈ ts, t < t0 + authLimiterWindowMs)
    (hlen : ts.length + 1 = authLimiterMax)
    (t' : Nat) (ht' : t' < t0 + authLimiterWindowMs) (b : Bool) :
    (runAuthHits authLimiterWindowMs authLimiterMax none
        ((t0 :: ts).map fun t => (t, false))).fst = true ∧
    (runAuthHits authLimiterWindowMs authLimiterMax none
        ((t0 :: ts).map fun t => (t, false))).snd = some ⟨authLimiterMax, t0⟩ ∧
    (authHit authLimiterWindowMs authLimiterMax t' b
        (some ⟨authLimiterMax, t0⟩)).fst = false ∧
    (∀ (cfg : VersionConfig) (ds hh : Option (List Char)) (p : List Char)
        (hs : Nat) (apiSt : Option WindowState),
      underAuth p = true →
      (runPipeline cfg ds ⟨p, hh, t', hs⟩
          ⟨some ⟨authLimiterMax, t0⟩, apiSt⟩).status = 429 ∧
      (runPipeline cfg ds ⟨p, hh, t', hs⟩
          ⟨some ⟨authLimiterMax, t0⟩, apiSt⟩).body = .errObj "error" tooManyMsg ∧
      (runPipeline cfg ds ⟨p, hh, t', hs⟩
          ⟨some ⟨authLimiterMax, t0⟩, apiSt⟩).handlerRan = false) ∧
    (∀ ss : List Nat,
      (runAuthHits authLimiterWindowMs authLimiterMax none
          (ss.map fun t => (t, true))).fst = true ∧
      ∀ stf, (runAuthHits authLimiterWindowMs authLimiterMax none
          (ss.map fun t => (t, true))).snd = some stf → stf.count = 0) ∧
    authLimiterMax = 5 ∧ authLimiterWindowMs = 15 * 60 * 1000 := by
  have hfirst : authHit authLimiterWindowMs authLimiterMax t0 false none =
      (true, ⟨1, t0⟩) := by
    simp [authHit, hit, authLimiterMax]
  have hrun := runAuthFails authLimiterWindowMs authLimiterMax ts 1 t0 hts (by omega)
  have hfull : runAuthHits authLimiterWindowMs authLimiterMax none
      ((t0 :: ts).map fun t => (t, false)) = (true, some ⟨authLimiterMax, t0⟩) := by
    have h3 : 1 + ts.length = authLimiterMax := by omega
    simp only [List.map_cons, runAuthHits, hfirst, hrun, h3]
    simp
  have hov : authLimiterMax < authLimiterMax + 1 := Nat.lt_succ_self _
  refine ⟨by rw [hfull], by rw [hfull], ?_, ?_, ?_, rfl, rfl⟩
  · rw [authHit_over authLimiterWindowMs authLimiterMax authLimiterMax t0 t' b ht' hov]
  · intro cfg ds hh p hs apiSt hu
    have hhit := hit_in_window authLimiterWindowMs authLimiterMax t0 t' ht'
    simp [runPipeline, hu, hhit, hov]
  · intro ss
    cases ss with
    | nil => exact ⟨rfl, fun stf hc => by cases hc⟩
    | cons t ss =>
      have hstep : authHit authLimiterWindowMs authLimiterMax t true none =
          (true, ⟨0, t⟩) := by
        simp [authHit, hit, authLimiterMax]
      have hinv := runAuthSuccess_zero authLimiterWindowMs authLimiterMax
        (by simp [authLimiterMax]) ss t
      refine ⟨?_, ?_⟩
      · simp only [List.map_cons, runAuthHits, hstep]
        simp [hinv.1]
      · intro stf hsnd
        obtain ⟨w', hw'⟩ := hinv.2
        simp only [List.map_cons, runAuthHits, hstep] at hsnd
        rw [hw'] at hsnd
        cases hsnd
        rfl

/-- C6 witness: five failures then a throttled sixth attempt, and three
successes that never consume budget, at concrete times. -/
theorem auth_limiter_counts_failures_only_inst :
    (runAuthHits authLimiterWindowMs authLimiterMax none
        ([0, 1, 2, 3, 4].map fun t => (t, false))).fst = true ∧
    (runAuthHits authLimiterWindowMs authLimiterMax none
        ([0, 1, 2, 3, 4].map fun t => (t, false))).snd = some ⟨5, 0⟩ ∧
    (authHit authLimiterWindowMs authLimiterMax 9 false
        (some ⟨authLimiterMax, 0⟩)).fst = false ∧
    (runPipeline apiVersionsV1 none ⟨"/auth/login".toList, none, 9, 200⟩
        ⟨some ⟨authLimiterMax, 0⟩, none⟩).status = 429 ∧
    (runAuthHits authLimiterWindowMs authLimiterMax none
        ([0, 1, 2].map fun t => (t, true))).fst = true := by
  have h := auth_limiter_counts_failures_only 0 [1, 2, 3, 4] (by decide) rfl
    9 (by decide) false
  refine ⟨h.1, by rw [h.2.1]; rfl, h.2.2.1, ?_, (h.2.2.2.2.1 [0, 1, 2]).1⟩
  exact (h.2.2.2.1 apiVersionsV1 none none "/auth/login".toList 200 none (by decide)).1

/-! ## C8 — the error funnel's envelope -/

/-- C8 (amended): every failure gets the uniform envelope with the
`error` marker and the configured current API version; an operational
error (an `AppError`, which always carries an explicit status code) keeps
its status code and — except when that code is 500 in production mode —
its message; any other failure becomes a 500 with the generic message;
the stack and the build version appear in the body exactly in development
mode; and a production 500 never carries the failure's raw message or
stack. -/
theorem error_funnel_envelope (cfg : EnvConfig) (req : ErrReq) (err : ThrownErr) :
    (errorHandler cfg req err).2.status = "error" ∧
    (errorHandler cfg req err).2.apiVersion = cfg.currentVersion ∧
    (∀ c, err.appCode = some c →
      (errorHandler cfg req err).2.statusCode = c ∧
      (¬(cfg.env = .production ∧ c = 500) →
        (errorHandler cfg req err).2.message = err.message)) ∧
    (err.appCode = none →
      (errorHandler cfg req err).2.statusCode = 500 ∧
      (errorHandler cfg req err).2.message = "Internal Server Error") ∧
    (errorHandler cfg req err).2.stack =
      (if cfg.env = .development then err.stack else none) ∧
    (errorHandler cfg req err).2.appVersion =
      (if cfg.env = .development then some cfg.appVersion else none) ∧
    (cfg.env = .production → (errorHandler cfg req err).2.statusCode = 500 →
      (errorHandler cfg req err).2.message = "Internal Server Error" ∧
      (errorHandler cfg req err).2.stack = none) := by
  refine ⟨rfl, rfl, fun c hc => ?_, fun hc => ?_, rfl, rfl, fun hprod h500 => ?_⟩
  · refine ⟨by simp [errorHandler, hc], fun hne => ?_⟩
    simp [errorHandler, hc, hne]
  · simp [errorHandler, hc]
  · constructor
    · rcases hac : err.appCode with _ | c
      · simp [errorHandler, hac, hprod]
      · simp only [errorHandler, hac] at h500 ⊢
        simp [hprod, h500]
    · simp [errorHandler, hprod]

/-- C8 witness: the envelope at concrete failures — an operational 404 in
production keeps its message, a plain fault in development carries stack
and build version, and a production 500 is fully suppressed. -/
theorem error_funnel_envelope_inst :
    (errorHandler ⟨.production, "v1", "1.0.0"⟩
        ⟨"/api/v1/x", "GET", "ip", "/api/v1/x".toList⟩
        ⟨"Route /api/v1/x not found", none, some 404⟩).2.statusCode = 404 ∧
    (errorHandler ⟨.production, "v1", "1.0.0"⟩
        ⟨"/api/v1/x", "GET", "ip", "/api/v1/x".toList⟩
        ⟨"Route /api/v1/x not found", none, some 404⟩).2.message =
      "Route /api/v1/x not found" ∧
    (errorHandler ⟨.development, "v1", "1.0.0"⟩
        ⟨"/api/v1/y", "GET", "ip", "/api/v1/y".toList⟩
        ⟨"boom", some "trace", none⟩).2.stack = some "trace" ∧
    (errorHandler ⟨.development, "v1", "1.0.0"⟩
        ⟨"/api/v1/y", "GET", "ip", "/api/v1/y".toList⟩
        ⟨"boom", some "trace", none⟩).2.appVersion = some "1.0.0" ∧
    (errorHandler ⟨.production, "v1", "1.0.0"⟩
        ⟨"/api/v1/y", "GET", "ip", "/api/v1/y".toList⟩
        ⟨"boom", some "trace", none⟩).2.message = "Internal Server Error" ∧
    (errorHandler ⟨.production, "v1", "1.0.0"⟩
        ⟨"/api/v1/y", "GET", "ip", "/api/v1/y".toList⟩
        ⟨"boom", some "trace", none⟩).2.stack = none := by
  have h1 := error_funnel_envelope ⟨.production, "v1", "1.0.0"⟩
    ⟨"/api/v1/x", "GET", "ip", "/api/v1/x".toList⟩
    ⟨"Route /api/v1/x not found", none, some 404⟩
  have h2 := error_funnel_envelope ⟨.development, "v1", "1.0.0"⟩
    ⟨"/api/v1/y", "GET", "ip", "/api/v1/y".toList⟩ ⟨"boom", some "trace", none⟩
  have h3 := error_funnel_envelope ⟨.production, "v1", "1.0.0"⟩
    ⟨"/api/v1/y", "GET", "ip", "/api/v1/y".toList⟩ ⟨"boom", some "trace", none⟩
  have h1' := h1.2.2.1 404 rfl
  have h3' := h3.2.2.2.2.2.2 rfl (h3.2.2.2.1 rfl).1
  exact ⟨h1'.1, h1'.2 (by simp), h2.2.2.2.2.1, h2.2.2.2.2.2.1, h3'.1, h3'.2⟩

end TaskExec
